import Mathlib

/-!
Verification of the `ir-news-brief-agent` core: item selection
(`tools.select_top_items`), the deterministic generation backend
(`llm.DemoLLM.generate_sections`), the planner (`planner.Planner.plan`),
the validator (`tools.validate_output`), the backend factory
(`llm.get_llm`) and the orchestration loop (`core.Agent.run`).

Python dictionaries holding raw JSON items are modelled as association
lists of string keys and scalar values; external effects (file reads,
network fetches, file writes) are abstracted as oracle parameters, while
every pure computation is translated directly from the source.
-/

namespace BriefAgent

open List

/-- A scalar field value of a raw item dictionary as it arrives from JSON:
either a string or an integer.  Two kinds suffice to express the
heterogeneous-type behaviour of the source (Python comparison between a
`str` and an `int` raises `TypeError`, and slicing a non-`str` raises
`TypeError`). -/
inductive Val where
  | vstr (s : String)
  | vint (n : Int)
deriving DecidableEq

/-- A raw IR/news item: a JSON object, modelled as an association list
from field names to scalar values (first binding wins, as dict keys are
unique). -/
abbrev Item := List (String × Val)

/-- Python `x.get(k, d)`: the value bound to `k`, or the default `d`. -/
def Item.get (x : Item) (k : String) (d : Val) : Val :=
  match x.lookup k with
  | some v => v
  | none => d

/-- Python truthiness of a scalar: non-empty string / non-zero integer. -/
def Val.truthy : Val → Bool
  | .vstr s => s ≠ ""
  | .vint n => n ≠ 0

/-- Whether the value is a string. -/
def Val.isStr : Val → Bool
  | .vstr _ => true
  | .vint _ => false

/-- Comparison on field values used by the sort key of
`select_top_items`.  On two strings it is Python's lexicographic
code-point order, on two integers the integer order.  In the source a
cross-kind comparison raises `TypeError`; `select_top_items` below
detects that situation (`mixedKeys`) and falls back before any
comparison happens, so the two cross-kind clauses here are never
exercised by the selector — they are fixed arbitrarily (integers below
strings) so that the order is total, which the sorting lemmas need. -/
def Val.le : Val → Val → Bool
  | .vstr a, .vstr b => decide (a ≤ b)
  | .vint a, .vint b => decide (a ≤ b)
  | .vint _, .vstr _ => true
  | .vstr _, .vint _ => false

/-- The sort key of `select_top_items`: `x.get(sort_by, "")`. -/
def itemKey (sort_by : String) (x : Item) : Val :=
  x.get sort_by (.vstr "")

/-- Descending comparison between items by their sort key: `a` may come
before `b` when `key b ≤ key a`.  A stable sort with this comparison is
exactly Python `sorted(items, key=lambda x: x.get(sort_by, ""),
reverse=True)` (stable descending). -/
def descLE (sort_by : String) (a b : Item) : Bool :=
  Val.le (itemKey sort_by b) (itemKey sort_by a)

/-- Whether the list of sort keys mixes strings and integers.  Python's
comparison sort raises `TypeError` exactly when the key list contains
both kinds: every string/integer comparison raises, and a sort of a list
containing both kinds must at some point compare a string key with an
integer key. -/
def mixedKeys (sort_by : String) (items : List Item) : Bool :=
  (items.any fun x => (itemKey sort_by x).isStr)
    && (items.any fun x => !(itemKey sort_by x).isStr)

/-- `tools.select_top_items`: empty input gives empty output; otherwise
sort stably descending by the `sort_by` field (missing field counts as
the empty string) and keep the first `n`.  When the key comparison would
raise `TypeError` (mixed key kinds) the source catches it and keeps the
items in original order before truncating. -/
def select_top_items (items : List Item) (n : Nat)
    (sort_by : String := "date") : List Item :=
  if items.isEmpty then []
  else
    let sorted_items :=
      if mixedKeys sort_by items then items
      else items.mergeSort (descLE sort_by)
    sorted_items.take n

theorem select_top_items_eq (items : List Item) (n : Nat) (sort_by : String) :
    select_top_items items n sort_by =
      if items.isEmpty then []
      else if mixedKeys sort_by items then items.take n
      else (items.mergeSort (descLE sort_by)).take n := by
  unfold select_top_items
  split
  · rfl
  · split <;> rfl

theorem valLeTrans : ∀ a b c : Val, Val.le a b → Val.le b c → Val.le a c := by
  intro a b c hab hbc
  cases a <;> cases b <;> cases c <;>
    simp only [Val.le, decide_eq_true_eq] at * <;>
    first
    | exact hab.trans hbc
    | trivial

theorem valLeTotal : ∀ a b : Val, Val.le a b || Val.le b a := by
  intro a b
  cases a <;> cases b <;>
    simp only [Val.le, Bool.or_eq_true, decide_eq_true_eq] <;>
    first
    | exact le_total _ _
    | trivial

theorem valLeRefl (a : Val) : Val.le a a := by
  cases a <;> simp [Val.le]

theorem descLETrans (sort_by : String) :
    ∀ a b c : Item, descLE sort_by a b → descLE sort_by b c → descLE sort_by a c := by
  intro a b c hab hbc
  exact valLeTrans _ _ _ hbc hab

theorem descLETotal (sort_by : String) :
    ∀ a b : Item, descLE sort_by a b || descLE sort_by b a := by
  intro a b
  exact valLeTotal _ _

/-- A list of items whose sort keys are all equal is pairwise
`descLE`-related, hence already "sorted" for the stable sort. -/
theorem pairwiseDescLEOfConstKey {sort_by : String} {items : List Item}
    {k : Val} (h : ∀ x ∈ items, itemKey sort_by x = k) :
    items.Pairwise (fun a b => descLE sort_by a b = true) :=
  List.pairwise_of_forall_mem_list fun a ha b hb => by
    unfold descLE
    rw [h a ha, h b hb]
    exact valLeRefl k

theorem filterTakeIsPre {α : Type} (p : α → Bool) (n : Nat) (l : List α) :
    (l.take n).filter p <+: l.filter p := by
  refine ⟨(l.drop n).filter p, ?_⟩
  rw [← List.filter_append, List.take_append_drop]

/-- Filtering the stable sort by an exact key value returns exactly the
same-key items in their original order. -/
theorem filterKeyMergeSort (sort_by : String) (items : List Item) (k : Val) :
    (items.mergeSort (descLE sort_by)).filter (fun x => itemKey sort_by x == k)
      = items.filter (fun x => itemKey sort_by x == k) := by
  have hsub : items.filter (fun x => itemKey sort_by x == k)
      <+ items.mergeSort (descLE sort_by) := by
    apply List.sublist_mergeSort (descLETrans sort_by) (descLETotal sort_by)
    · apply pairwiseDescLEOfConstKey (k := k)
      intro x hx
      have := List.of_mem_filter hx
      simpa using this
    · exact List.filter_sublist _
  have hsub2 : (items.filter (fun x => itemKey sort_by x == k)).filter
        (fun x => itemKey sort_by x == k)
      <+ (items.mergeSort (descLE sort_by)).filter (fun x => itemKey sort_by x == k) :=
    hsub.filter _
  rw [List.filter_filter] at hsub2
  simp only [Bool.and_self] at hsub2
  have hperm : (items.mergeSort (descLE sort_by)).filter (fun x => itemKey sort_by x == k)
      ~ items.filter (fun x => itemKey sort_by x == k) :=
    (List.mergeSort_perm items (descLE sort_by)).filter _
  exact (hsub2.eq_of_length hperm.length_eq.symm).symm

/-- C3: `select_top_items items n "date"` returns `min n (length items)`
items, drawn from the input; same-key items appear in their original
relative order (stability of the descending sort); when every date key
is a string (so the descending comparison is the Python string
comparison throughout) the result is sorted descending by date; empty
input gives empty output. -/
theorem C3_select_top (items : List Item) (n : Nat) :
    (select_top_items items n "date").length = min n items.length
    ∧ select_top_items items n "date" <+~ items
    ∧ (∀ k : Val,
        (select_top_items items n "date").filter (fun x => itemKey "date" x == k)
          <+: items.filter (fun x => itemKey "date" x == k))
    ∧ ((∀ x ∈ items, (itemKey "date" x).isStr)
        → (select_top_items items n "date").Pairwise
            (fun a b => descLE "date" a b = true))
    ∧ select_top_items [] n "date" = [] := by
  refine ⟨?_, ?_, ?_, ?_, rfl⟩
  · rw [select_top_items_eq]
    split_ifs with h1 h2
    · rw [List.isEmpty_iff.mp h1]
      simp
    · simp
    · simp
  · rw [select_top_items_eq]
    split_ifs with h1 h2
    · exact List.nil_subperm
    · exact (List.take_sublist _ _).subperm
    · exact ((List.take_sublist _ _).subperm).trans
        (List.mergeSort_perm items _).subperm
  · intro k
    rw [select_top_items_eq]
    split_ifs with h1 h2
    · rw [List.isEmpty_iff.mp h1]
    · exact filterTakeIsPre _ n items
    · have h := filterTakeIsPre (fun x => itemKey "date" x == k) n
        (items.mergeSort (descLE "date"))
      rwa [filterKeyMergeSort] at h
  · intro hstr
    rw [select_top_items_eq]
    split_ifs with h1 h2
    · exact List.Pairwise.nil
    · exfalso
      unfold mixedKeys at h2
      simp only [Bool.and_eq_true, List.any_eq_true] at h2
      obtain ⟨-, x, hx, hnot⟩ := h2
      rw [hstr x hx] at hnot
      exact absurd hnot (by simp)
    · exact (List.sorted_mergeSort (descLETrans "date") (descLETotal "date")
        items).sublist (List.take_sublist _ _)

/-- Concrete items with string dates, used as the C3 witness input. -/
def itemsWitnessC3 : List Item :=
  [[("date", .vstr "2026-01-01"), ("title", .vstr "a")],
   [("title", .vstr "b")],
   [("date", .vstr "2026-02-01"), ("title", .vstr "c")]]

theorem C3_select_top_witness :
    (∀ x ∈ itemsWitnessC3, (itemKey "date" x).isStr)
    ∧ (select_top_items itemsWitnessC3 2 "date").Pairwise
        (fun a b => descLE "date" a b = true) :=
  ⟨by decide, (C3_select_top itemsWitnessC3 2).2.2.2.1 (by decide)⟩

/-- C4: when every item lacks the sort field all keys are the empty
string, the stable sort keeps the original order and the first `n` items
are returned; when the keys mix strings and integers (the comparison
raises `TypeError` in the source) the caught fallback likewise returns
the first `n` items in original order.  The embedding is a total
function: every branch of the source either returns normally or is
caught, so the selector never raises. -/
theorem C4_select_top_fallback (items : List Item) (n : Nat) :
    ((∀ x ∈ items, x.lookup "date" = none)
      → select_top_items items n "date" = items.take n)
    ∧ (mixedKeys "date" items = true
      → select_top_items items n "date" = items.take n) := by
  constructor
  · intro hnone
    have hkey : ∀ x ∈ items, itemKey "date" x = Val.vstr "" := by
      intro x hx
      unfold itemKey Item.get
      rw [hnone x hx]
    rw [select_top_items_eq]
    split_ifs with h1 h2
    · rw [List.isEmpty_iff.mp h1]
      simp
    · rfl
    · rw [List.mergeSort_of_sorted (pairwiseDescLEOfConstKey hkey)]
  · intro hmix
    rw [select_top_items_eq]
    split_ifs with h1
    · rw [List.isEmpty_iff.mp h1]
      simp
    · rfl

/-- Items with no date field at all, used in the C4 witness. -/
def itemsWitnessNoDate : List Item :=
  [[("title", .vstr "x")], [("title", .vstr "y")], [("title", .vstr "z")]]

/-- Items whose date keys mix a string and an integer, used in the C4
witness (this input makes the source's `sorted` call raise `TypeError`,
which it catches). -/
def itemsWitnessMixed : List Item :=
  [[("date", .vint 20260101)], [("date", .vstr "2026-01-02")]]

theorem C4_select_top_fallback_witness :
    ((∀ x ∈ itemsWitnessNoDate, x.lookup "date" = none)
      ∧ select_top_items itemsWitnessNoDate 2 "date" = itemsWitnessNoDate.take 2)
    ∧ (mixedKeys "date" itemsWitnessMixed = true
      ∧ select_top_items itemsWitnessMixed 1 "date" = itemsWitnessMixed.take 1) :=
  ⟨⟨by decide, (C4_select_top_fallback itemsWitnessNoDate 2).1 (by decide)⟩,
   ⟨by decide, (C4_select_top_fallback itemsWitnessMixed 1).2 (by decide)⟩⟩

/-! ## Deterministic generation backend (`llm.DemoLLM.generate_sections`) -/

/-- The sections mapping returned by every `generate_sections` variant:
keys `summary_bullets`, `drivers`, `risks`, `limitations`. -/
structure Sections where
  summary_bullets : List String
  drivers : List String
  risks : List String
  limitations : List String
deriving DecidableEq

/-- The narrowed context the orchestrator hands to the backend
(`core.Agent._execute_step`, GENERATE_SECTIONS case): exactly the keys
`ticker`, `date`, `ir_releases`, `news`.  The `.get` defaults in the
source (`"UNKNOWN"`, `[]`) only matter for dict inputs lacking these
keys; the orchestrator always supplies all four, so the context is
modelled as a total structure. -/
structure LLMCtx where
  ticker : String
  date : String
  ir_releases : List Item
  news : List Item
deriving DecidableEq

/-- Python string slicing `v[:n]`: defined for `str` values, raises
`TypeError` on an `int`. -/
def sliceVal (v : Val) (n : Nat) : Except String String :=
  match v with
  | .vstr s => .ok (s.take n)
  | .vint _ => .error "TypeError: value is not subscriptable"

/-- The string carried by a value (used to state what slicing returns;
the `vint` clause is never reached where this is used). -/
def strVal : Val → String
  | .vstr s => s
  | .vint _ => ""

/-- An element of `', '.join(...)`: must be a `str`, else `TypeError`. -/
def valToStr (v : Val) : Except String String :=
  match v with
  | .vstr s => .ok s
  | .vint _ => .error "TypeError: join argument is not a str"

/-- Python `set(...)` of the source values.  CPython iterates a set in a
hash-dependent but (within one process) fixed order; it is modelled here
by a fixed deterministic representative, deduplication.  Every property
proved below is insensitive to the particular order. -/
def pySet (vs : List Val) : List Val := vs.dedup

/-- `', '.join(filter(None, sources))`: drop falsy elements, require the
rest to be strings, join with a comma. -/
def joinSources (vs : List Val) : Except String String := do
  let strs ← (vs.filter Val.truthy).mapM valToStr
  pure <| String.intercalate ", " strs

/-- Bullets contributed by the `if news_items:` branch of
`DemoLLM.generate_sections`: the truncated first title (when truthy),
the item count line, and the source list line (the source set is always
non-empty when news is, so its guard always passes). -/
def newsBullets (ticker : String) (news_items : List Item) :
    Except String (List String) :=
  match news_items with
  | [] => .ok []
  | first_news :: _ => do
    let title := first_news.get "title" (.vstr "")
    let b1 ←
      if title.truthy then do
        let t ← sliceVal title 100
        pure <| ["Uutinen: " ++ t ++ "..."]
      else
        pure <| ([] : List String)
    let b2 := ["Löydettiin " ++ toString news_items.length
      ++ " uutista yrityksestä " ++ ticker ++ "."]
    let sources := pySet ((news_items.take 3).map fun item =>
      item.get "source" (.vstr ""))
    let b3 ←
      if sources.isEmpty then
        pure <| ([] : List String)
      else do
        let joined ← joinSources sources
        pure <| ["Lähteet: " ++ joined]
    pure <| b1 ++ b2 ++ b3

/-- Bullets contributed by the `if ir_releases:` branch: the count line
and the truncated first title (when present and truthy). -/
def irBullets (ir_releases : List Item) : Except String (List String) :=
  match ir_releases with
  | [] => .ok []
  | first :: _ => do
    let b1 := ["IR-tiedotteita: " ++ toString ir_releases.length
      ++ " kpl tarkastelujaksolla."]
    let b2 ←
      match first.lookup "title" with
      | some v =>
        if v.truthy then do
          let t ← sliceVal v 80
          pure <| ["Tärkein tiedote: " ++ t]
        else
          pure <| ([] : List String)
      | none => pure <| ([] : List String)
    pure <| b1 ++ b2

/-- The source's `while len(l) < k: l.append(filler)` padding loop. -/
def padTo (filler : String) (k : Nat) (l : List String) : List String :=
  l ++ List.replicate (k - l.length) filler

/-- Loop body of the drivers loop: append a truncated title line when
the item has a truthy title. -/
def driverStep (acc : List String) (item : Item) : Except String (List String) :=
  let title := item.get "title" (.vstr "")
  if title.truthy then do
    let t ← sliceVal title 80
    pure <| acc ++ ["Uutisanalyysi: " ++ t]
  else
    pure <| acc

/-- Filler driver appended while fewer than three drivers exist. -/
def fillerDriver : String :=
  "Lisätietoja saatavilla yhtiön sijoittajasivuilta."

/-- Drivers: one line per truthy title among the first three news items,
padded with the fixed filler up to three. -/
def driversOf (news_items : List Item) : Except String (List String) := do
  let base ← (news_items.take 3).foldlM driverStep []
  pure <| padTo fillerDriver 3 base

/-- Fixed risks list of the deterministic backend. -/
def demoRisks : List String :=
  ["Markkinatilanne voi vaikuttaa osakekurssiin",
   "Toimialaan liittyvät yleiset riskit",
   "Valuuttakurssien ja korkojen vaikutus tulokseen"]

/-- Fixed limitations list of the deterministic backend. -/
def demoLimitations : List String :=
  ["Tiivistelmä perustuu automaattiseen uutishakuun.",
   "Analyysi ei ole sijoitussuositus.",
   "Tarkista tiedot yhtiön virallisista lähteistä."]

/-- Filler bullet appended while fewer than three summary bullets exist. -/
def fillerBullet (ticker : String) : String :=
  "Analyysi perustuu julkisiin uutisiin yrityksestä " ++ ticker ++ "."

/-- `llm.DemoLLM.generate_sections`: deterministic template generation.
An `Except.error` models a `TypeError` raised in the source while
slicing or joining a truthy non-string field value. -/
def DemoLLM.generate_sections (ctx : LLMCtx) : Except String Sections := do
  let nb ← newsBullets ctx.ticker ctx.news
  let ib ← irBullets ctx.ir_releases
  let summary_bullets := padTo (fillerBullet ctx.ticker) 3 (nb ++ ib)
  let drivers ← driversOf ctx.news
  pure <| { summary_bullets := summary_bullets.take 6,
            drivers := drivers.take 3,
            risks := demoRisks,
            limitations := demoLimitations }

/-- An item's `title` and `source` values, when present, are strings. -/
def strTitleSource (x : Item) : Bool :=
  (match x.lookup "title" with
   | some v => v.isStr
   | none => true)
  && (match x.lookup "source" with
      | some v => v.isStr
      | none => true)

theorem get_title_isStr (x : Item) (h : strTitleSource x) :
    (x.get "title" (.vstr "")).isStr := by
  unfold strTitleSource at h
  rw [Bool.and_eq_true] at h
  cases hx : x.lookup "title" with
  | none => simp [Item.get, hx, Val.isStr]
  | some v =>
    have hv : v.isStr := by
      have := h.1
      rw [hx] at this
      exact this
    simp [Item.get, hx, hv]

theorem get_source_isStr (x : Item) (h : strTitleSource x) :
    (x.get "source" (.vstr "")).isStr := by
  unfold strTitleSource at h
  rw [Bool.and_eq_true] at h
  cases hx : x.lookup "source" with
  | none => simp [Item.get, hx, Val.isStr]
  | some v =>
    have hv : v.isStr := by
      have := h.2
      rw [hx] at this
      exact this
    simp [Item.get, hx, hv]

theorem sliceVal_isStr_ok (v : Val) (h : v.isStr) (n : Nat) :
    sliceVal v n = .ok ((strVal v).take n) := by
  cases v
  · rfl
  · simp [Val.isStr] at h

theorem mapM_valToStr_ok (vs : List Val) (h : ∀ v ∈ vs, v.isStr) :
    vs.mapM valToStr = .ok (vs.map strVal) := by
  induction vs with
  | nil => rfl
  | cons v vs ih =>
    have hv := h v (by simp)
    rw [List.mapM_cons, ih (fun w hw => h w (by simp [hw]))]
    cases v
    · rfl
    · simp [Val.isStr] at hv

theorem joinSources_ok (vs : List Val) (h : ∀ v ∈ vs, v.isStr) :
    joinSources vs
      = .ok (String.intercalate ", " ((vs.filter Val.truthy).map strVal)) := by
  unfold joinSources
  rw [mapM_valToStr_ok _ (fun v hv => h v (List.mem_of_mem_filter hv))]
  rfl

theorem exceptPure {e a : Type} (x : a) : (pure x : Except e a) = Except.ok x := rfl

theorem newsBullets_ok (ticker : String) (news : List Item)
    (hne : news ≠ []) (h : ∀ x ∈ news, strTitleSource x) :
    ∃ nb, newsBullets ticker news = .ok nb ∧ 2 ≤ nb.length ∧ nb.length ≤ 3 := by
  obtain ⟨first, rest, rfl⟩ := List.exists_cons_of_ne_nil hne
  have htitle : (first.get "title" (.vstr "")).isStr :=
    get_title_isStr _ (h first (by simp))
  have hsources : ∀ v ∈ pySet (((first :: rest).take 3).map fun item =>
      item.get "source" (.vstr "")), v.isStr := by
    intro v hv
    rw [pySet, List.mem_dedup] at hv
    obtain ⟨x, hx, rfl⟩ := List.mem_map.mp hv
    exact get_source_isStr _ (h x (List.mem_of_mem_take hx))
  have hsrcne : (pySet (((first :: rest).take 3).map fun item =>
      item.get "source" (.vstr ""))).isEmpty = false := by
    simp [pySet, List.dedup_eq_nil]
  unfold newsBullets
  dsimp only []
  rw [sliceVal_isStr_ok _ htitle, joinSources_ok _ hsources, hsrcne]
  cases htr : (first.get "title" (.vstr "")).truthy <;>
    simp only [htr, Except.bind, exceptPure, Bool.false_eq_true, if_false, if_true,
      Bool.true_eq_false, List.isEmpty_nil, List.nil_append, List.append_nil] <;>
    exact ⟨_, rfl, by simp⟩

theorem irBullets_ok (ir : List Item) (hne : ir ≠ [])
    (h : ∀ x ∈ ir, strTitleSource x) :
    ∃ ib, irBullets ir = .ok ib ∧ 1 ≤ ib.length ∧ ib.length ≤ 2 := by
  obtain ⟨first, rest, rfl⟩ := List.exists_cons_of_ne_nil hne
  unfold irBullets
  dsimp only []
  cases hx : first.lookup "title" with
  | none =>
    simp only [hx, exceptPure]
    exact ⟨_, rfl, by simp⟩
  | some v =>
    have hv : v.isStr := by
      have hs := h first (by simp)
      unfold strTitleSource at hs
      rw [Bool.and_eq_true] at hs
      have := hs.1
      rw [hx] at this
      exact this
    simp only [hx]
    rw [sliceVal_isStr_ok v hv]
    cases htr : v.truthy <;>
      simp only [htr, Except.bind, exceptPure, Bool.false_eq_true, if_false, if_true,
        Bool.true_eq_false] <;>
      exact ⟨_, rfl, by simp⟩

theorem driversFold_ok (l : List Item) :
    ∀ acc : List String, (∀ x ∈ l, strTitleSource x) →
    ∃ r, l.foldlM driverStep acc = .ok r ∧ r.length ≤ acc.length + l.length := by
  induction l with
  | nil =>
    intro acc h
    exact ⟨acc, rfl, by simp⟩
  | cons x xs ih =>
    intro acc h
    have hx : (x.get "title" (.vstr "")).isStr := get_title_isStr x (h x (by simp))
    have hstep : ∃ acc2, driverStep acc x = .ok acc2 ∧ acc2.length ≤ acc.length + 1 := by
      unfold driverStep
      dsimp only []
      rw [sliceVal_isStr_ok _ hx]
      cases htr : (x.get "title" (.vstr "")).truthy <;>
        simp only [htr, Except.bind, exceptPure, Bool.false_eq_true, if_false, if_true,
          Bool.true_eq_false] <;>
        exact ⟨_, rfl, by simp⟩
    obtain ⟨acc2, hs, hlen⟩ := hstep
    obtain ⟨r, hr, hrlen⟩ := ih acc2 (fun y hy => h y (by simp [hy]))
    refine ⟨r, ?_, by simp only [List.length_cons]; omega⟩
    rw [List.foldlM_cons, hs]
    simpa [Except.bind, exceptPure] using hr

theorem driversOf_ok (news : List Item) (h : ∀ x ∈ news, strTitleSource x) :
    ∃ dr, driversOf news = .ok dr ∧ dr.length = 3 := by
  obtain ⟨r, hr, hrlen⟩ := driversFold_ok (news.take 3) []
    (fun x hx => h x (List.mem_of_mem_take hx))
  simp only [List.length_nil, Nat.zero_add] at hrlen
  have htk : (news.take 3).length ≤ 3 := by
    rw [List.length_take]
    omega
  refine ⟨padTo fillerDriver 3 r, ?_, ?_⟩
  · unfold driversOf
    rw [hr]
    rfl
  · simp only [padTo, List.length_append, List.length_replicate]
    omega

/-- C5 as stated is refuted by `C5_counterexample` below; this is the
amended claim: for every context with non-empty `ir_releases` and
non-empty `news` whose items carry only string `title`/`source` values
(as all JSON fixture and fetched items do), `generate_sections` returns
sections with 3–6 summary bullets, a non-empty drivers list of at most
3 entries, exactly 3 risks and exactly 3 limitations, regardless of how
many input items are supplied. -/
theorem C5_demo_section_bounds (ctx : LLMCtx)
    (hn : ctx.news ≠ []) (hi : ctx.ir_releases ≠ [])
    (hs : ∀ x ∈ ctx.news, strTitleSource x)
    (hs2 : ∀ x ∈ ctx.ir_releases, strTitleSource x) :
    ∃ s, DemoLLM.generate_sections ctx = .ok s
      ∧ 3 ≤ s.summary_bullets.length ∧ s.summary_bullets.length ≤ 6
      ∧ s.drivers ≠ [] ∧ s.drivers.length ≤ 3
      ∧ s.risks.length = 3 ∧ s.limitations.length = 3 := by
  obtain ⟨nb, hnb, hnb2, hnb3⟩ := newsBullets_ok ctx.ticker ctx.news hn hs
  obtain ⟨ib, hib, hib1, hib2⟩ := irBullets_ok ctx.ir_releases hi hs2
  obtain ⟨dr, hdr, hdr3⟩ := driversOf_ok ctx.news hs
  unfold DemoLLM.generate_sections
  rw [hnb, hib, hdr]
  refine ⟨_, rfl, ?_, ?_, ?_, ?_, rfl, rfl⟩
  · simp only [padTo, List.length_take, List.length_append, List.length_replicate]
    omega
  · simp only [padTo, List.length_take, List.length_append, List.length_replicate]
    omega
  · show dr.take 3 ≠ []
    have h3 : (dr.take 3).length = 3 := by
      simp only [List.length_take]
      omega
    intro hnil
    rw [hnil] at h3
    simp at h3
  · simp only [List.length_take]
    omega

/-- A context with non-empty `ir_releases` and `news` on which
`generate_sections` raises: the first news item's title is a truthy
integer and Python `title[:100]` is undefined for `int`. -/
def ctxCounterC5 : LLMCtx :=
  { ticker := "NOKIA.HE", date := "2026-01-18",
    ir_releases := [[("title", Val.vstr "Q4 results")]],
    news := [[("title", Val.vint 1)]] }

/-- C5 counterexample: the claim quantifies over every context with
non-empty item lists, but on `ctxCounterC5` the source raises
`TypeError` (slicing an integer title) instead of returning a mapping. -/
theorem C5_counterexample :
    ctxCounterC5.news ≠ [] ∧ ctxCounterC5.ir_releases ≠ []
    ∧ DemoLLM.generate_sections ctxCounterC5
        = .error "TypeError: value is not subscriptable" := by
  refine ⟨by decide, by decide, ?_⟩
  rfl

theorem C5_demo_section_bounds_witness :
    ∃ s, DemoLLM.generate_sections
        { ticker := "NOKIA.HE", date := "2026-01-18",
          ir_releases := [[("title", Val.vstr "Q4 results"), ("date", Val.vstr "2026-01-10")]],
          news := [[("title", Val.vstr "Nokia wins deal"), ("source", Val.vstr "Reuters")]] }
        = .ok s
      ∧ 3 ≤ s.summary_bullets.length ∧ s.summary_bullets.length ≤ 6
      ∧ s.drivers ≠ [] ∧ s.drivers.length ≤ 3
      ∧ s.risks.length = 3 ∧ s.limitations.length = 3 :=
  C5_demo_section_bounds _ (by decide) (by decide) (by decide) (by decide)

/-- C6: the deterministic backend is a pure function of its context —
the embedding performs no I/O by construction, and the result depends
only on the `ticker`, `ir_releases` and `news` entries of the context
(`date` is never read), so equal contexts give identical output across
invocations. -/
theorem C6_demo_deterministic (c1 c2 : LLMCtx)
    (ht : c1.ticker = c2.ticker) (hi : c1.ir_releases = c2.ir_releases)
    (hn : c1.news = c2.news) :
    DemoLLM.generate_sections c1 = DemoLLM.generate_sections c2 := by
  obtain ⟨t1, d1, i1, n1⟩ := c1
  obtain ⟨t2, d2, i2, n2⟩ := c2
  simp only at ht hi hn
  subst ht hi hn
  rfl

theorem C6_demo_deterministic_witness :
    DemoLLM.generate_sections
        { ticker := "NOKIA.HE", date := "2026-01-18", ir_releases := [], news := [] }
      = DemoLLM.generate_sections
        { ticker := "NOKIA.HE", date := "2026-02-01", ir_releases := [], news := [] } :=
  C6_demo_deterministic _ _ rfl rfl rfl

/-- C10: on a context whose `ir_releases` and `news` are both empty the
backend still returns a complete result: three copies of the
ticker-parameterised filler bullet, three copies of the filler driver,
and the fixed risks and limitations lists. -/
theorem C10_demo_empty_inputs (ctx : LLMCtx)
    (hi : ctx.ir_releases = []) (hn : ctx.news = []) :
    DemoLLM.generate_sections ctx = .ok
      { summary_bullets := List.replicate 3 (fillerBullet ctx.ticker),
        drivers := List.replicate 3 fillerDriver,
        risks := demoRisks,
        limitations := demoLimitations } := by
  obtain ⟨t, d, i, n⟩ := ctx
  simp only at hi hn
  subst hi hn
  rfl

theorem C10_demo_empty_inputs_witness :
    DemoLLM.generate_sections
        { ticker := "NOKIA.HE", date := "2026-01-18", ir_releases := [], news := [] }
      = .ok
      { summary_bullets := List.replicate 3 (fillerBullet "NOKIA.HE"),
        drivers := List.replicate 3 fillerDriver,
        risks := demoRisks,
        limitations := demoLimitations } :=
  C10_demo_empty_inputs _ rfl rfl

/-! ## Planner (`planner.Planner.plan`) -/

/-- The step kinds of the execution plan (`planner.StepType`). -/
inductive StepType where
  | LOAD_IR
  | LOAD_NEWS
  | SELECT_ITEMS
  | GENERATE_SECTIONS
  | RENDER_OUTPUT
  | VALIDATE
  | SAVE
deriving DecidableEq

/-- A parameter value in a step's params mapping: a string or a number. -/
inductive PVal where
  | ps (s : String)
  | pn (n : Nat)
deriving DecidableEq

/-- A single step of the execution plan (`planner.PlanStep`). -/
structure PlanStep where
  step_type : StepType
  description : String
  params : List (String × PVal)
deriving DecidableEq

/-- The goal mapping passed to the planner; `plan` reads the keys
`ticker`, `date` and `mode` with defaults `"UNKNOWN"`, `""`, `"demo"`. -/
structure Goal where
  ticker : Option String
  date : Option String
  mode : Option String

/-- `planner.Planner.plan`: the fixed eight-step skeleton; only the
descriptions and params are parameterised by the goal.  Total — the
source has no failure path. -/
def Planner.plan (goal : Goal) : List PlanStep :=
  let ticker := goal.ticker.getD "UNKNOWN"
  let date := goal.date.getD ""
  let mode := goal.mode.getD "demo"
  [ { step_type := .LOAD_IR,
      description := "Load IR releases for " ++ ticker,
      params := [("ticker", .ps ticker), ("date", .ps date)] },
    { step_type := .LOAD_NEWS,
      description := "Load news items for " ++ ticker,
      params := [("ticker", .ps ticker), ("date", .ps date)] },
    { step_type := .SELECT_ITEMS,
      description := "Select top IR releases (3 items)",
      params := [("source", .ps "ir"), ("n", .pn 3)] },
    { step_type := .SELECT_ITEMS,
      description := "Select top news items (5 items)",
      params := [("source", .ps "news"), ("n", .pn 5)] },
    { step_type := .GENERATE_SECTIONS,
      description := "Generate summary, drivers, and risks via LLM",
      params := [("mode", .ps mode)] },
    { step_type := .RENDER_OUTPUT,
      description := "Render markdown and prepare JSON",
      params := [("ticker", .ps ticker), ("date", .ps date)] },
    { step_type := .VALIDATE,
      description := "Validate output contains all required sections",
      params := [] },
    { step_type := .SAVE,
      description := "Save MD and JSON files to output directory",
      params := [("output_dir", .ps "output")] } ]

/-- C7: for every goal the plan is the same sequence of exactly eight
step types in the fixed order, with the stated parameters on the two
SELECT_ITEMS steps and the SAVE step; the step-type sequence does not
depend on the goal; `plan` is total (never fails). -/
theorem C7_planner_fixed_plan (goal : Goal) :
    (Planner.plan goal).map PlanStep.step_type
      = [.LOAD_IR, .LOAD_NEWS, .SELECT_ITEMS, .SELECT_ITEMS,
         .GENERATE_SECTIONS, .RENDER_OUTPUT, .VALIDATE, .SAVE]
    ∧ (Planner.plan goal).length = 8
    ∧ ((Planner.plan goal).get? 2).map PlanStep.params
        = some [("source", .ps "ir"), ("n", .pn 3)]
    ∧ ((Planner.plan goal).get? 3).map PlanStep.params
        = some [("source", .ps "news"), ("n", .pn 5)]
    ∧ ((Planner.plan goal).get? 7).map PlanStep.params
        = some [("output_dir", .ps "output")]
    ∧ (∀ g2 : Goal, (Planner.plan goal).map PlanStep.step_type
        = (Planner.plan g2).map PlanStep.step_type) :=
  ⟨rfl, rfl, rfl, rfl, rfl, fun _ => rfl⟩

/-! ## Schemas (`schemas.py`) and validator (`tools.validate_output`) -/

/-- `schemas.IRRelease`. -/
structure IRRelease where
  title : String
  date : String
  source : String
  url : String
  summary : Option String
deriving DecidableEq

/-- `schemas.NewsItem`. -/
structure NewsItem where
  title : String
  source : String
  url : String
  date : Option String
  summary : Option String
deriving DecidableEq

/-- `schemas.BriefOutput`. -/
structure BriefOutput where
  date : String
  ticker : String
  summary_bullets : List String
  ir_releases : List IRRelease
  news : List NewsItem
  drivers : List String
  risks : List String
  limitations : List String
deriving DecidableEq

/-- `tools.validate_output`: every check runs; each violated check
appends its message, in source order; no short-circuiting, no failure
path. -/
def validate_output (brief : BriefOutput) : List String :=
  (if brief.summary_bullets.length < 3
    then ["Summary should have at least 3 bullets"] else [])
  ++ (if brief.summary_bullets.length > 6
    then ["Summary should have at most 6 bullets"] else [])
  ++ (if brief.ir_releases.isEmpty
    then ["At least one IR release is required"] else [])
  ++ (if brief.news.isEmpty
    then ["At least one news item is required"] else [])
  ++ (if brief.drivers.isEmpty
    then ["At least one driver is required"] else [])
  ++ (if brief.risks.isEmpty
    then ["At least one risk is required"] else [])

theorem mem_ite_singleton {c : Prop} [Decidable c] (m m' : String) :
    (m ∈ if c then [m'] else []) ↔ (c ∧ m = m') := by
  split_ifs with h <;> simp [h]

theorem validate_mem (brief : BriefOutput) (m : String) :
    m ∈ validate_output brief ↔
      (brief.summary_bullets.length < 3 ∧ m = "Summary should have at least 3 bullets")
      ∨ (brief.summary_bullets.length > 6 ∧ m = "Summary should have at most 6 bullets")
      ∨ (brief.ir_releases.isEmpty ∧ m = "At least one IR release is required")
      ∨ (brief.news.isEmpty ∧ m = "At least one news item is required")
      ∨ (brief.drivers.isEmpty ∧ m = "At least one driver is required")
      ∨ (brief.risks.isEmpty ∧ m = "At least one risk is required") := by
  unfold validate_output
  simp only [List.mem_append, mem_ite_singleton, or_assoc]

/-- A brief with two summary bullets and otherwise non-empty sections. -/
def briefTwoBullets : BriefOutput :=
  { date := "2026-01-18", ticker := "NOKIA.HE",
    summary_bullets := ["a", "b"],
    ir_releases := [{ title := "t", date := "2026-01-10", source := "s",
                      url := "u", summary := none }],
    news := [{ title := "t", source := "s", url := "u",
               date := none, summary := none }],
    drivers := ["d"], risks := ["r"], limitations := ["l"] }

/-- A brief with four summary bullets and non-empty ir/news/drivers/risks. -/
def briefFourBullets : BriefOutput :=
  { date := "2026-01-18", ticker := "NOKIA.HE",
    summary_bullets := ["a", "b", "c", "d"],
    ir_releases := [{ title := "t", date := "2026-01-10", source := "s",
                      url := "u", summary := none }],
    news := [{ title := "t", source := "s", url := "u",
               date := none, summary := none }],
    drivers := ["d"], risks := ["r"], limitations := ["l"] }

/-- C8: each of the five checks independently contributes its issue
exactly when violated; the issue list is empty exactly when all five
checks pass; a brief with two bullets yields the bullet-count issue and
a four-bullet brief with non-empty sections yields no issues.  The
validator is a total pure function (never raises). -/
theorem C8_validator (brief : BriefOutput) :
    ("Summary should have at least 3 bullets" ∈ validate_output brief
      ↔ brief.summary_bullets.length < 3)
    ∧ ("Summary should have at most 6 bullets" ∈ validate_output brief
      ↔ brief.summary_bullets.length > 6)
    ∧ ("At least one IR release is required" ∈ validate_output brief
      ↔ brief.ir_releases = [])
    ∧ ("At least one news item is required" ∈ validate_output brief
      ↔ brief.news = [])
    ∧ ("At least one driver is required" ∈ validate_output brief
      ↔ brief.drivers = [])
    ∧ ("At least one risk is required" ∈ validate_output brief
      ↔ brief.risks = [])
    ∧ (validate_output brief = []
      ↔ (3 ≤ brief.summary_bullets.length ∧ brief.summary_bullets.length ≤ 6
         ∧ brief.ir_releases ≠ [] ∧ brief.news ≠ [] ∧ brief.drivers ≠ []
         ∧ brief.risks ≠ []))
    ∧ validate_output briefTwoBullets = ["Summary should have at least 3 bullets"]
    ∧ validate_output briefFourBullets = [] := by
  refine ⟨?_, ?_, ?_, ?_, ?_, ?_, ?_, by rfl, by rfl⟩
  · rw [validate_mem]
    simp [List.isEmpty_iff]
  · rw [validate_mem]
    simp [List.isEmpty_iff]
  · rw [validate_mem]
    simp [List.isEmpty_iff]
  · rw [validate_mem]
    simp [List.isEmpty_iff]
  · rw [validate_mem]
    simp [List.isEmpty_iff]
  · rw [validate_mem]
    simp [List.isEmpty_iff]
  · unfold validate_output
    split_ifs <;> simp_all [List.isEmpty_iff]

/-! ## Backend factory (`llm.get_llm`) -/

/-- A constructed backend instance.  The remote variants store the
credential their constructor resolved from the environment. -/
inductive LLM where
  | demo
  | openai (api_key : String)
  | anthropic (api_key : String)
  | gemini (api_key : String)
deriving DecidableEq

/-- The process environment: `os.getenv` returns `none` for an unset
variable. -/
abbrev Env := String → Option String

/-- Credential resolution in the remote constructors: `os.getenv`
followed by the falsiness check `if not self.api_key: raise ValueError`,
so an unset variable and an empty string both count as missing. -/
def credentialOf (env : Env) (name : String) : Option String :=
  match env name with
  | some k => if k = "" then none else some k
  | none => none

/-- `llm.get_llm`: the factory.  A `ValueError` raised by a remote
constructor (missing credential) is caught and the deterministic backend
substituted; an unknown mode also falls back to the deterministic
backend.  Total — never surfaces a failure. -/
def get_llm (mode : String) (env : Env) : LLM :=
  if mode = "demo" then .demo
  else if mode = "openai" then
    match credentialOf env "OPENAI_API_KEY" with
    | some k => .openai k
    | none => .demo
  else if mode = "anthropic" then
    match credentialOf env "ANTHROPIC_API_KEY" with
    | some k => .anthropic k
    | none => .demo
  else if mode = "gemini" then
    match credentialOf env "GEMINI_API_KEY" with
    | some k => .gemini k
    | none => .demo
  else .demo

/-- `llm.OpenAILLM.generate_sections`: constructs a fresh `DemoLLM` and
delegates to it ("for now, fall back to demo-style output"). -/
def OpenAILLM.generate_sections (ctx : LLMCtx) : Except String Sections :=
  DemoLLM.generate_sections ctx

/-- `llm.AnthropicLLM.generate_sections`: delegates to a fresh
`DemoLLM`. -/
def AnthropicLLM.generate_sections (ctx : LLMCtx) : Except String Sections :=
  DemoLLM.generate_sections ctx

/-- `generate_sections` of a constructed backend.  The Gemini variant
performs a remote call with JSON extraction and a demo fallback; that
remote interaction is abstracted as the oracle `geminiGen` (no claim
concerns it). -/
def LLM.generateSections
    (geminiGen : String → LLMCtx → Except String Sections) :
    LLM → LLMCtx → Except String Sections
  | .demo, ctx => DemoLLM.generate_sections ctx
  | .openai _, ctx => OpenAILLM.generate_sections ctx
  | .anthropic _, ctx => AnthropicLLM.generate_sections ctx
  | .gemini k, ctx => geminiGen k ctx

/-- C9: requesting the OpenAI or Anthropic backend with a missing (or
empty, hence falsy) credential falls back to the deterministic backend
without surfacing a failure, and the sections it produces on any context
are exactly those of the demo backend on the same context. -/
theorem C9_fallback_no_credential (env : Env) (ctx : LLMCtx)
    (geminiGen : String → LLMCtx → Except String Sections)
    (h1 : credentialOf env "OPENAI_API_KEY" = none)
    (h2 : credentialOf env "ANTHROPIC_API_KEY" = none) :
    get_llm "openai" env = .demo
    ∧ get_llm "anthropic" env = .demo
    ∧ LLM.generateSections geminiGen (get_llm "openai" env) ctx
        = DemoLLM.generate_sections ctx
    ∧ LLM.generateSections geminiGen (get_llm "anthropic" env) ctx
        = DemoLLM.generate_sections ctx
    ∧ LLM.generateSections geminiGen (get_llm "demo" env) ctx
        = DemoLLM.generate_sections ctx := by
  have e1 : get_llm "openai" env = .demo := by
    simp [get_llm, h1]
  have e2 : get_llm "anthropic" env = .demo := by
    simp [get_llm, h2]
  refine ⟨e1, e2, ?_, ?_, rfl⟩
  · rw [e1]
    rfl
  · rw [e2]
    rfl

theorem C9_fallback_no_credential_witness :
    get_llm "openai" (fun _ => none) = .demo
    ∧ get_llm "anthropic" (fun _ => none) = .demo
    ∧ LLM.generateSections (fun _ _ => .error "network")
        (get_llm "openai" (fun _ => none))
        { ticker := "NOKIA.HE", date := "2026-01-18", ir_releases := [], news := [] }
      = DemoLLM.generate_sections
        { ticker := "NOKIA.HE", date := "2026-01-18", ir_releases := [], news := [] }
    ∧ LLM.generateSections (fun _ _ => .error "network")
        (get_llm "anthropic" (fun _ => none))
        { ticker := "NOKIA.HE", date := "2026-01-18", ir_releases := [], news := [] }
      = DemoLLM.generate_sections
        { ticker := "NOKIA.HE", date := "2026-01-18", ir_releases := [], news := [] }
    ∧ LLM.generateSections (fun _ _ => .error "network")
        (get_llm "demo" (fun _ => none))
        { ticker := "NOKIA.HE", date := "2026-01-18", ir_releases := [], news := [] }
      = DemoLLM.generate_sections
        { ticker := "NOKIA.HE", date := "2026-01-18", ir_releases := [], news := [] } :=
  C9_fallback_no_credential (fun _ => none) _ (fun _ _ => .error "network") rfl rfl

/-! ## Orchestrator (`core.Agent.run`) -/

/-- Stock info mapping fetched in live mode. -/
abbrev StockInfo := List (String × Val)

/-- The per-run mutable context of `Agent.run`, with the keys the source
seeds (`generated_sections` starts as the empty dict, modelled `none`;
`stock_info` is only added in live mode). -/
structure Ctx where
  ticker : String
  date : String
  mode : String
  ir_releases_raw : List Item
  news_raw : List Item
  ir_releases : List Item
  news : List Item
  generated_sections : Option Sections
  brief : Option BriefOutput
  output_paths : Option (String × String)
  stock_info : Option StockInfo
deriving DecidableEq

/-- The context `Agent.run` seeds before the ACT phase. -/
def initCtx (ticker date mode : String) : Ctx :=
  { ticker := ticker, date := date, mode := mode,
    ir_releases_raw := [], news_raw := [], ir_releases := [], news := [],
    generated_sections := none, brief := none, output_paths := none,
    stock_info := none }

/-- The file names `tools.write_output_files` derives and returns:
`output_dir/brief_<ticker>_<date>.md` and `.json`.  The file writes
themselves are external I/O; the returned path pair is pure. -/
def savePaths (brief : BriefOutput) (output_dir : String) : String × String :=
  (output_dir ++ "/brief_" ++ brief.ticker ++ "_" ++ brief.date ++ ".md",
   output_dir ++ "/brief_" ++ brief.ticker ++ "_" ++ brief.date ++ ".json")

/-- The SAVE step (`Agent._execute_step`, SAVE case): persist the brief
and record the returned paths only when `brief` is present; otherwise do
nothing — and raise nothing. -/
def execSave (output_dir : String) (ctx : Ctx) : Ctx :=
  match ctx.brief with
  | some b => { ctx with output_paths := some (savePaths b output_dir) }
  | none => ctx

/-- The narrowed context built for GENERATE_SECTIONS
(`Agent._execute_step`, GENERATE_SECTIONS case). -/
def narrowCtx (ctx : Ctx) : LLMCtx :=
  { ticker := ctx.ticker, date := ctx.date,
    ir_releases := ctx.ir_releases, news := ctx.news }

/-- The GENERATE_SECTIONS step: invoke the backend on the narrowed
context; on success store the sections; a raised exception (`.error`)
escapes before the context assignment, leaving the context untouched. -/
def execGenerate (llmGen : LLMCtx → Except String Sections) (ctx : Ctx) :
    Except Ctx Ctx :=
  match llmGen (narrowCtx ctx) with
  | .ok s => .ok { ctx with generated_sections := some s }
  | .error _ => .error ctx

/-- The REFLECT phase after the step loop: fail (`none`) when no brief
was generated; otherwise run the validator — whose issues are only
logged, never fatal — and return `output_paths`, which is `none` when
the SAVE step did not populate it. -/
def reflect (ctx : Ctx) : Option (String × String) :=
  match ctx.brief with
  | none => none
  | some b =>
    let _issues := validate_output b
    ctx.output_paths

/-- The ACT loop of `Agent.run`.  `exec k ctx step` is one execution of
`_execute_step`, with `k` a global invocation index (so one oracle can
describe an attempt that fails and a retry that succeeds); `.error c`
models an exception escaping the step, `c` being the context as the
failed step left it.  A failing GENERATE_SECTIONS step is re-executed
exactly once; a failure of any other step type, or of the retry, aborts
the whole loop. -/
def runSteps (exec : Nat → Ctx → PlanStep → Except Ctx Ctx) :
    Nat → Ctx → List PlanStep → Option Ctx
  | _, ctx, [] => some ctx
  | k, ctx, step :: rest =>
    match exec k ctx step with
    | .ok c => runSteps exec (k + 1) c rest
    | .error c1 =>
      if step.step_type = StepType.GENERATE_SECTIONS then
        match exec (k + 1) c1 step with
        | .ok c2 => runSteps exec (k + 2) c2 rest
        | .error _ => none
      else none

/-- `core.Agent.run`: seed the context, plan, run the ACT loop under the
retry policy, then reflect.  Step execution is abstracted by the oracle
`exec` (it covers the fixture reads, live fetches, rendering and file
writes of `_execute_step`); the run returns the output path pair on
success and the failure signal `none` otherwise. -/
def AgentRun (exec : Nat → Ctx → PlanStep → Except Ctx Ctx)
    (ticker date mode : String) : Option (String × String) :=
  match runSteps exec 0 (initCtx ticker date mode)
      (Planner.plan { ticker := some ticker, date := some date, mode := some mode }) with
  | none => none
  | some ctx => reflect ctx

theorem reflect_some_iff (ctx : Ctx) (p : String × String) :
    reflect ctx = some p ↔ (ctx.brief ≠ none ∧ ctx.output_paths = some p) := by
  unfold reflect
  cases hb : ctx.brief <;> simp

/-- C1: in the ACT loop a failing GENERATE_SECTIONS step is re-executed
exactly once — at the very next invocation, on the same step, with the
context as the failed attempt left it (and the GENERATE_SECTIONS
executor leaves the context unchanged on failure, so the two attempts
see identical inputs); if the retry also fails the loop yields `none`
and no further step is executed.  A failing step of any other type
aborts immediately with no retry, and an aborted loop makes `Agent.run`
return the failure signal `none`. -/
theorem C1_retry_policy (exec : Nat → Ctx → PlanStep → Except Ctx Ctx)
    (k : Nat) (ctx c1 : Ctx) (step : PlanStep) (rest : List PlanStep) :
    (step.step_type = StepType.GENERATE_SECTIONS → exec k ctx step = .error c1 →
      runSteps exec k ctx (step :: rest)
        = match exec (k + 1) c1 step with
          | .ok c2 => runSteps exec (k + 2) c2 rest
          | .error _ => none)
    ∧ (step.step_type ≠ StepType.GENERATE_SECTIONS → exec k ctx step = .error c1 →
      runSteps exec k ctx (step :: rest) = none)
    ∧ (∀ (llmGen : LLMCtx → Except String Sections) (c c' : Ctx),
        execGenerate llmGen c = .error c' → c' = c)
    ∧ (∀ ticker date mode,
        runSteps exec 0 (initCtx ticker date mode)
          (Planner.plan { ticker := some ticker, date := some date, mode := some mode })
          = none
        → AgentRun exec ticker date mode = none) := by
  refine ⟨?_, ?_, ?_, ?_⟩
  · intro hty herr
    simp [runSteps, herr, hty]
  · intro hty herr
    simp [runSteps, herr, hty]
  · intro llmGen c c' h
    unfold execGenerate at h
    cases hg : llmGen (narrowCtx c) <;> rw [hg] at h
    · injection h with h
      exact h.symm
    · exact absurd h (by simp)
  · intro t d m h
    unfold AgentRun
    rw [h]

/-- The GENERATE_SECTIONS step of the fixed plan, used in the C1
witness. -/
def stepGenWitness : PlanStep :=
  { step_type := .GENERATE_SECTIONS,
    description := "Generate summary, drivers, and risks via LLM",
    params := [("mode", .ps "demo")] }

theorem C1_retry_policy_witness :
    runSteps (fun _ c _ => .error c) 0 (initCtx "NOKIA.HE" "2026-01-18" "demo")
      [stepGenWitness] = none := by
  have h := (C1_retry_policy (fun _ c _ => Except.error c) 0
      (initCtx "NOKIA.HE" "2026-01-18" "demo")
      (initCtx "NOKIA.HE" "2026-01-18" "demo") stepGenWitness []).1 rfl rfl
  rw [h]

/-- C2: the SAVE step records the output paths exactly when a brief is
present and is the identity (raising nothing — it is total) otherwise;
the final checkpoint returns a path pair exactly when a brief was
generated and `output_paths` was populated; hence `Agent.run` returns
the pair of paths exactly when the loop completed with both `brief` and
`output_paths` present in the final context, and the failure signal
`none` otherwise. -/
theorem C2_save_and_reflect (ctx : Ctx) (output_dir : String) :
    (∀ b, ctx.brief = some b →
      execSave output_dir ctx
        = { ctx with output_paths := some (savePaths b output_dir) })
    ∧ (ctx.brief = none → execSave output_dir ctx = ctx)
    ∧ (∀ p, reflect ctx = some p ↔ (ctx.brief ≠ none ∧ ctx.output_paths = some p))
    ∧ (∀ exec ticker date mode p,
        AgentRun exec ticker date mode = some p
        ↔ ∃ cf, runSteps exec 0 (initCtx ticker date mode)
            (Planner.plan { ticker := some ticker, date := some date, mode := some mode })
            = some cf
          ∧ cf.brief ≠ none ∧ cf.output_paths = some p) := by
  refine ⟨?_, ?_, fun p => reflect_some_iff ctx p, ?_⟩
  · intro b hb
    unfold execSave
    rw [hb]
  · intro hb
    unfold execSave
    rw [hb]
  · intro exec t d m p
    unfold AgentRun
    cases hr : runSteps exec 0 (initCtx t d m)
        (Planner.plan { ticker := some t, date := some d, mode := some m }) with
    | none => simp
    | some cf => simp [reflect_some_iff]

/-- A run context holding a generated brief, used in the C2 witness. -/
def ctxSaveWitness : Ctx :=
  { initCtx "NOKIA.HE" "2026-01-18" "demo" with
    brief := some
      { date := "2026-01-18", ticker := "NOKIA.HE",
        summary_bullets := ["a", "b", "c"],
        ir_releases := [], news := [], drivers := ["d"],
        risks := ["r"], limitations := ["l"] } }

theorem C2_save_and_reflect_witness :
    execSave "output" ctxSaveWitness
      = { ctxSaveWitness with
          output_paths := some ("output/brief_NOKIA.HE_2026-01-18.md",
                                "output/brief_NOKIA.HE_2026-01-18.json") } :=
  (C2_save_and_reflect ctxSaveWitness "output").1
    { date := "2026-01-18", ticker := "NOKIA.HE",
      summary_bullets := ["a", "b", "c"],
      ir_releases := [], news := [], drivers := ["d"],
      risks := ["r"], limitations := ["l"] } rfl

end BriefAgent
